import Mathlib

/-!
Verification of the C2 controller (`pyftdi/c2.py`): a master-side protocol
engine for the Silicon Labs C2 two-wire debug interface driven over an FTDI
MPSSE transport.  The development embeds:

* the byte frames produced by the four transaction encoders (`write_addr`,
  `read_addr`, `write_data_byte`, `read_data_byte`), written out literally
  from the source;
* a structural view of MPSSE command streams (`MpsseCmd`) with an encoder and
  a decoder, used to state structural properties of the frames;
* the controller state (connectivity, pending write buffer, and a log of
  transport events) together with the buffering / flushing operations
  (`_stack_cmd`, `sync`), the lifecycle operations (`close`, `reset`) and the
  four public transactions.
-/

/-- Bit mask of the C2 clock line (AD0), from the source (`CK_BIT`). -/
def CK_BIT : Nat := 0x01

/-- Bit mask of the C2 data output line (AD1), from the source (`D_O_BIT`). -/
def D_O_BIT : Nat := 0x02

/-- Bit mask of the C2 data input line (AD2), from the source (`D_I_BIT`). -/
def D_I_BIT : Nat := 0x04

/-- Transport buffer limit, from the source (`FTDI_PIPE_LEN = 512`). -/
def FTDI_PIPE_LEN : Nat := 512

/-- C2 instruction code for reading the data register (source: `INS_READ_DATA`). -/
def INS_READ_DATA : Nat := 0

/-- C2 instruction code for writing the data register (source: `INS_WRITE_DATA`). -/
def INS_WRITE_DATA : Nat := 1

/-- C2 instruction code for reading the address register (source: `INS_READ_ADDR`). -/
def INS_READ_ADDR : Nat := 2

/-- C2 instruction code for writing the address register (source: `INS_WRITE_ADDR`). -/
def INS_WRITE_ADDR : Nat := 3

/-- Modelled from the spec: MPSSE opcode `Ftdi.CLK_BITS_NO_DATA` (clock out n
bits with no data transfer), referenced by the source but declared in the
transport layer (`ftdi.py`), which is not part of the sources here.  The value
is the standard FTDI MPSSE opcode. -/
def CLK_BITS_NO_DATA : Nat := 0x8E

/-- Modelled from the spec: MPSSE opcode `Ftdi.SET_BITS_LOW` (set low-byte
GPIO output levels: value byte then direction byte), declared in the
transport layer (`ftdi.py`).  Standard FTDI MPSSE opcode value. -/
def SET_BITS_LOW : Nat := 0x80

/-- Modelled from the spec: MPSSE opcode `Ftdi.WRITE_BITS_PVE_LSB` (clock out
up to 8 bits, LSB first; arguments: bit-count field, data byte), declared in
the transport layer (`ftdi.py`).  Standard FTDI MPSSE opcode value. -/
def WRITE_BITS_PVE_LSB : Nat := 0x1A

/-- Modelled from the spec: MPSSE opcode `Ftdi.WRITE_BYTES_PVE_LSB` (clock out
bytes, LSB first; arguments: low/high length bytes then payload), declared in
the transport layer (`ftdi.py`).  Standard FTDI MPSSE opcode value. -/
def WRITE_BYTES_PVE_LSB : Nat := 0x18

/-- Modelled from the spec: MPSSE opcode `Ftdi.READ_BYTES_PVE_LSB` (clock in
bytes, LSB first; arguments: low/high length bytes), declared in the
transport layer (`ftdi.py`).  Standard FTDI MPSSE opcode value. -/
def READ_BYTES_PVE_LSB : Nat := 0x28

/-- Modelled from the spec: MPSSE opcode `Ftdi.CLK_WAIT_ON_HIGH` (clock
continuously until the input line goes high; no arguments), declared in the
transport layer (`ftdi.py`).  Standard FTDI MPSSE opcode value. -/
def CLK_WAIT_ON_HIGH : Nat := 0x94

/-- The byte frame built by `C2Controller.write_addr`, transcribed literally
from the source tuple (START, drive C2D, INS, ADDRESS, release C2D, STOP). -/
def writeAddrFrame (addr : Nat) : List Nat :=
  [CLK_BITS_NO_DATA, 0,
   SET_BITS_LOW, CK_BIT ||| D_O_BIT, CK_BIT ||| D_O_BIT,
   WRITE_BITS_PVE_LSB, 1, INS_WRITE_ADDR,
   WRITE_BYTES_PVE_LSB, 0, 0, addr,
   SET_BITS_LOW, CK_BIT ||| D_O_BIT, CK_BIT,
   CLK_BITS_NO_DATA, 0]

/-- The byte frame built by `C2Controller.read_addr`, transcribed literally
from the source tuple (START, drive C2D, INS, release C2D, ADDRESS, STOP). -/
def readAddrFrame : List Nat :=
  [CLK_BITS_NO_DATA, 0,
   SET_BITS_LOW, CK_BIT ||| D_O_BIT, CK_BIT ||| D_O_BIT,
   WRITE_BITS_PVE_LSB, 1, INS_READ_ADDR,
   SET_BITS_LOW, CK_BIT ||| D_O_BIT, CK_BIT,
   READ_BYTES_PVE_LSB, 0, 0,
   CLK_BITS_NO_DATA, 0]

/-- The byte frame built by `C2Controller.write_data_byte`, transcribed
literally from the source tuple (START, drive C2D, INS+LENGTH0, DATA,
release C2D, WAIT, STOP). -/
def writeDataByteFrame (val : Nat) : List Nat :=
  [CLK_BITS_NO_DATA, 0,
   SET_BITS_LOW, CK_BIT ||| D_O_BIT, CK_BIT ||| D_O_BIT,
   WRITE_BITS_PVE_LSB, 3, INS_WRITE_DATA,
   WRITE_BYTES_PVE_LSB, 0, 0, val,
   SET_BITS_LOW, CK_BIT ||| D_O_BIT, CK_BIT,
   CLK_WAIT_ON_HIGH,
   CLK_BITS_NO_DATA, 0]

/-- The byte frame built by `C2Controller.read_data_byte`, transcribed
literally from the source tuple (START, drive C2D, INS+LENGTH0, release C2D,
WAIT, DATA, STOP). -/
def readDataByteFrame : List Nat :=
  [CLK_BITS_NO_DATA, 0,
   SET_BITS_LOW, CK_BIT ||| D_O_BIT, CK_BIT ||| D_O_BIT,
   WRITE_BITS_PVE_LSB, 3, INS_READ_DATA,
   SET_BITS_LOW, CK_BIT ||| D_O_BIT, CK_BIT,
   CLK_WAIT_ON_HIGH,
   READ_BYTES_PVE_LSB, 0, 0,
   CLK_BITS_NO_DATA, 0]

/-- Structural view of one MPSSE transport command, covering exactly the
command set the C2 encoders emit. -/
inductive MpsseCmd : Type
  /-- clock n+1 bits with no data transfer -/
  | clkBitsNoData (n : Nat) : MpsseCmd
  /-- set low-byte GPIO levels: value byte, direction byte -/
  | setBitsLow (value dir : Nat) : MpsseCmd
  /-- clock out bits LSB first: bit-count field, data byte -/
  | writeBitsPveLsb (count data : Nat) : MpsseCmd
  /-- clock out payload bytes LSB first -/
  | writeBytesPveLsb (payload : List Nat) : MpsseCmd
  /-- clock in bytes LSB first: low/high length bytes -/
  | readBytesPveLsb (lo hi : Nat) : MpsseCmd
  /-- clock until the input line is high -/
  | clkWaitOnHigh : MpsseCmd
  deriving DecidableEq, Repr

/-- Byte encoding of one structural MPSSE command, following the transport
conventions named by the spec (write-bytes commands carry a zero-based
16-bit length before the payload). -/
def encodeCmd : MpsseCmd → List Nat
  | MpsseCmd.clkBitsNoData n => [CLK_BITS_NO_DATA, n]
  | MpsseCmd.setBitsLow v d => [SET_BITS_LOW, v, d]
  | MpsseCmd.writeBitsPveLsb c d => [WRITE_BITS_PVE_LSB, c, d]
  | MpsseCmd.writeBytesPveLsb p =>
      WRITE_BYTES_PVE_LSB :: ((p.length - 1) % 256) :: ((p.length - 1) / 256) :: p
  | MpsseCmd.readBytesPveLsb lo hi => [READ_BYTES_PVE_LSB, lo, hi]
  | MpsseCmd.clkWaitOnHigh => [CLK_WAIT_ON_HIGH]

/-- Byte encoding of a list of structural MPSSE commands (concatenation). -/
def encodeCmds (cs : List MpsseCmd) : List Nat :=
  cs.foldr (fun c acc => encodeCmd c ++ acc) []

/-- Structural decoder for MPSSE command streams, fuelled by the number of
remaining bytes (each command consumes at least one byte). -/
def decodeCmds : Nat → List Nat → Option (List MpsseCmd)
  | _, [] => some []
  | 0, _ :: _ => none
  | fuel + 1, b :: rest =>
    if b = CLK_BITS_NO_DATA then
      match rest with
      | n :: rest2 =>
        match decodeCmds fuel rest2 with
        | some cs => some (MpsseCmd.clkBitsNoData n :: cs)
        | none => none
      | [] => none
    else if b = SET_BITS_LOW then
      match rest with
      | v :: d :: rest2 =>
        match decodeCmds fuel rest2 with
        | some cs => some (MpsseCmd.setBitsLow v d :: cs)
        | none => none
      | _ => none
    else if b = WRITE_BITS_PVE_LSB then
      match rest with
      | c :: d :: rest2 =>
        match decodeCmds fuel rest2 with
        | some cs => some (MpsseCmd.writeBitsPveLsb c d :: cs)
        | none => none
      | _ => none
    else if b = WRITE_BYTES_PVE_LSB then
      match rest with
      | lo :: hi :: rest2 =>
        if lo + 256 * hi + 1 ≤ rest2.length then
          match decodeCmds fuel (rest2.drop (lo + 256 * hi + 1)) with
          | some cs =>
              some (MpsseCmd.writeBytesPveLsb (rest2.take (lo + 256 * hi + 1)) :: cs)
          | none => none
        else none
      | _ => none
    else if b = READ_BYTES_PVE_LSB then
      match rest with
      | lo :: hi :: rest2 =>
        match decodeCmds fuel rest2 with
        | some cs => some (MpsseCmd.readBytesPveLsb lo hi :: cs)
        | none => none
      | _ => none
    else if b = CLK_WAIT_ON_HIGH then
      match decodeCmds fuel rest with
      | some cs => some (MpsseCmd.clkWaitOnHigh :: cs)
      | none => none
    else none

/-- Structural decoding of a whole byte frame. -/
def decodeFrame (bs : List Nat) : Option (List MpsseCmd) :=
  decodeCmds bs.length bs

/-- Structural command sequence of the `write_addr` frame. -/
def writeAddrCmds (addr : Nat) : List MpsseCmd :=
  [MpsseCmd.clkBitsNoData 0,
   MpsseCmd.setBitsLow (CK_BIT ||| D_O_BIT) (CK_BIT ||| D_O_BIT),
   MpsseCmd.writeBitsPveLsb 1 INS_WRITE_ADDR,
   MpsseCmd.writeBytesPveLsb [addr],
   MpsseCmd.setBitsLow (CK_BIT ||| D_O_BIT) CK_BIT,
   MpsseCmd.clkBitsNoData 0]

/-- Structural command sequence of the `read_addr` frame. -/
def readAddrCmds : List MpsseCmd :=
  [MpsseCmd.clkBitsNoData 0,
   MpsseCmd.setBitsLow (CK_BIT ||| D_O_BIT) (CK_BIT ||| D_O_BIT),
   MpsseCmd.writeBitsPveLsb 1 INS_READ_ADDR,
   MpsseCmd.setBitsLow (CK_BIT ||| D_O_BIT) CK_BIT,
   MpsseCmd.readBytesPveLsb 0 0,
   MpsseCmd.clkBitsNoData 0]

/-- Structural command sequence of the `write_data_byte` frame. -/
def writeDataByteCmds (val : Nat) : List MpsseCmd :=
  [MpsseCmd.clkBitsNoData 0,
   MpsseCmd.setBitsLow (CK_BIT ||| D_O_BIT) (CK_BIT ||| D_O_BIT),
   MpsseCmd.writeBitsPveLsb 3 INS_WRITE_DATA,
   MpsseCmd.writeBytesPveLsb [val],
   MpsseCmd.setBitsLow (CK_BIT ||| D_O_BIT) CK_BIT,
   MpsseCmd.clkWaitOnHigh,
   MpsseCmd.clkBitsNoData 0]

/-- Structural command sequence of the `read_data_byte` frame. -/
def readDataByteCmds : List MpsseCmd :=
  [MpsseCmd.clkBitsNoData 0,
   MpsseCmd.setBitsLow (CK_BIT ||| D_O_BIT) (CK_BIT ||| D_O_BIT),
   MpsseCmd.writeBitsPveLsb 3 INS_READ_DATA,
   MpsseCmd.setBitsLow (CK_BIT ||| D_O_BIT) CK_BIT,
   MpsseCmd.clkWaitOnHigh,
   MpsseCmd.readBytesPveLsb 0 0,
   MpsseCmd.clkBitsNoData 0]

/-- Count of WAIT (clock-until-input-high) commands in a command sequence. -/
def countWait (cs : List MpsseCmd) : Nat :=
  cs.countP (fun c => match c with
    | MpsseCmd.clkWaitOnHigh => true
    | _ => false)

/-- First C2 instruction byte recovered from a decoded command sequence (the
data byte of the first bit-write command). -/
def decodedIns (cs : List MpsseCmd) : Option Nat :=
  cs.findSome? (fun c => match c with
    | MpsseCmd.writeBitsPveLsb _ d => some d
    | _ => none)

/-- First payload recovered from a decoded command sequence (the payload of
the first byte-write command). -/
def decodedPayload (cs : List MpsseCmd) : Option (List Nat) :=
  cs.findSome? (fun c => match c with
    | MpsseCmd.writeBytesPveLsb p => some p
    | _ => none)

/-- Errors the controller can raise.  `notConnected` embeds the
`C2Error("FTDI controller terminated")` exception, which the spec maps to the
`NotConnected` error kind; `typeError` embeds the `TypeError` raised on a
malformed command (`InvalidArgument` kind); `indexError` embeds Python's
untyped `IndexError` from indexing an empty reply. -/
inductive C2Err : Type
  | notConnected : C2Err
  | typeError : C2Err
  | indexError : C2Err
  deriving DecidableEq, Repr

/-- Whether an error is one of the spec's tagged C2 error kinds (as opposed
to an untyped runtime error such as `indexError`). -/
def C2Err.isTagged : C2Err → Bool
  | C2Err.notConnected => true
  | C2Err.typeError => true
  | C2Err.indexError => false

/-- Observable transport events: a raw command write (`Ftdi.write_data`) or a
synchronous read (`Ftdi.read_data_bytes count factor`). -/
inductive Ev : Type
  | writeData (data : List Nat) : Ev
  | readDataBytes (count factor : Nat) : Ev
  deriving DecidableEq, Repr

/-- Holds when every event in the list is a raw command write. -/
def allWrites (es : List Ev) : Prop :=
  ∀ e ∈ es, ∃ d, e = Ev.writeData d

/-- Concatenated payload of the write events in a list. -/
def writesFlat : List Ev → List Nat
  | [] => []
  | Ev.writeData d :: es => d ++ writesFlat es
  | Ev.readDataBytes _ _ :: es => writesFlat es

/-- State of a `C2Controller` together with its transport.  `connected` is
the transport's connectivity; `writeBuff` is `self._write_buff`; `events` is
the chronological log of transport calls made so far.

Modelled from the spec: the transport handle's validity (`not self._ftdi` in
`_stack_cmd`) and its connectivity query (`self._ftdi.is_connected`) are
both represented by `connected`, since per the spec the handle is created on
`configure` and invalidated on `close`, after which every operation fails
with `NotConnected`; the transport itself (`ftdi.py`) is not among the
sources. -/
structure C2State : Type where
  connected : Bool
  writeBuff : List Nat
  events : List Ev
  deriving DecidableEq, Repr

/-- Embedding of `C2Controller.sync`: raise if the transport is gone,
otherwise write out a non-empty pending buffer as one transport write and
clear it.  The returned state is the object state at return or raise time. -/
def sync (s : C2State) : Option C2Err × C2State :=
  if s.connected = false then (some C2Err.notConnected, s)
  else if s.writeBuff = [] then (none, s)
  else (none, { s with writeBuff := [],
                       events := s.events ++ [Ev.writeData s.writeBuff] })

/-- Embedding of `C2Controller._stack_cmd`: after the type and connectivity
checks, flush first when the pending buffer plus the new command plus one
reserved send-immediate byte would reach `FTDI_PIPE_LEN`, then append the
command to the buffer.  The `isinstance` check cannot fire in the embedding,
where every command is a byte list. -/
def stack_cmd (s : C2State) (cmd : List Nat) : Option C2Err × C2State :=
  if s.connected = false then (some C2Err.notConnected, s)
  else
    match (if FTDI_PIPE_LEN ≤ s.writeBuff.length + cmd.length + 1
           then sync s else (none, s)) with
    | (some e, s1) => (some e, s1)
    | (none, s1) => (none, { s1 with writeBuff := s1.writeBuff ++ cmd })

/-- Embedding of `C2Controller.write_addr`: encode and enqueue. -/
def write_addr (s : C2State) (addr : Nat) : Option C2Err × C2State :=
  stack_cmd s (writeAddrFrame addr)

/-- Embedding of `C2Controller.write_data_byte`: encode and enqueue. -/
def write_data_byte (s : C2State) (val : Nat) : Option C2Err × C2State :=
  stack_cmd s (writeDataByteFrame val)

/-- Embedding of `C2Controller.read_addr`: enqueue the frame, force a flush,
issue one synchronous transport read of 1 logical byte with sample factor 4,
and return byte 0 of the reply.  `reply` is the byte sequence the transport
returns for that read; indexing an empty reply raises the untyped
`indexError`. -/
def read_addr (s : C2State) (reply : List Nat) : Except C2Err Nat × C2State :=
  match stack_cmd s readAddrFrame with
  | (some e, s1) => (Except.error e, s1)
  | (none, s1) =>
    match sync s1 with
    | (some e, s2) => (Except.error e, s2)
    | (none, s2) =>
      let s3 := { s2 with events := s2.events ++ [Ev.readDataBytes 1 4] }
      match reply with
      | [] => (Except.error C2Err.indexError, s3)
      | b :: _ => (Except.ok b, s3)

/-- Embedding of `C2Controller.read_data_byte`, mirroring `read_addr` with
the data-register frame. -/
def read_data_byte (s : C2State) (reply : List Nat) :
    Except C2Err Nat × C2State :=
  match stack_cmd s readDataByteFrame with
  | (some e, s1) => (Except.error e, s1)
  | (none, s1) =>
    match sync s1 with
    | (some e, s2) => (Except.error e, s2)
    | (none, s2) =>
      let s3 := { s2 with events := s2.events ++ [Ev.readDataBytes 1 4] }
      match reply with
      | [] => (Except.error C2Err.indexError, s3)
      | b :: _ => (Except.ok b, s3)

/-- Embedding of `C2Controller.close`: when connected, close the transport
(with or without freezing the pin state), which invalidates it.

Modelled from the spec: `Ftdi.close` lives in the transport layer; per the
spec it moves the handle to the invalidated state, so `connected` becomes
false.  The `freeze` flag only affects the transport's pin state. -/
def close (s : C2State) (freeze : Bool) : C2State :=
  if s.connected then { s with connected := false } else s

/-- Embedding of `C2Controller.reset`: raise if not connected, flush pending
output, then issue two SET-output transport writes: clock low then clock
high, both with the data-output bit driven. -/
def reset (s : C2State) : Option C2Err × C2State :=
  if s.connected = false then (some C2Err.notConnected, s)
  else
    match sync s with
    | (some e, s1) => (some e, s1)
    | (none, s1) =>
      let s2 := { s1 with events := s1.events ++
                    [Ev.writeData [SET_BITS_LOW, 0 ||| D_O_BIT, CK_BIT]] }
      (none, { s2 with events := s2.events ++
                    [Ev.writeData [SET_BITS_LOW, CK_BIT ||| D_O_BIT, CK_BIT]] })

/-- Enqueue a list of frames one after the other through `_stack_cmd`,
stopping at the first error (an exception aborts the sequence). -/
def enqueueAll (s : C2State) (frames : List (List Nat)) :
    Option C2Err × C2State :=
  frames.foldl
    (fun p f => match p with
      | (some e, st) => (some e, st)
      | (none, st) => stack_cmd st f)
    (none, s)

/-- On a connected transport, `sync` succeeds and leaves an empty buffer,
logging one write of the old buffer exactly when it was non-empty. -/
theorem sync_eq (s : C2State) (hc : s.connected = true) :
    sync s = (none, { s with
      writeBuff := [],
      events := s.events ++
        (if s.writeBuff = [] then [] else [Ev.writeData s.writeBuff]) }) := by
  obtain ⟨c, buf, evs⟩ := s
  subst hc
  by_cases hb : buf = [] <;> simp [sync, hb]

/-- On a connected transport, below the flush threshold `_stack_cmd` just
appends to the buffer. -/
theorem stack_cmd_below (s : C2State) (cmd : List Nat) (hc : s.connected = true)
    (hlt : s.writeBuff.length + cmd.length + 1 < FTDI_PIPE_LEN) :
    stack_cmd s cmd = (none, { s with writeBuff := s.writeBuff ++ cmd }) := by
  have h : ¬ FTDI_PIPE_LEN ≤ s.writeBuff.length + cmd.length + 1 := by omega
  unfold stack_cmd
  rw [hc]
  simp [h, hc]

/-- On a connected transport, at or above the flush threshold `_stack_cmd`
flushes the buffer first and then starts a fresh buffer holding only the new
command. -/
theorem stack_cmd_above (s : C2State) (cmd : List Nat) (hc : s.connected = true)
    (hge : FTDI_PIPE_LEN ≤ s.writeBuff.length + cmd.length + 1) :
    stack_cmd s cmd = (none, { s with
      writeBuff := cmd,
      events := s.events ++
        (if s.writeBuff = [] then [] else [Ev.writeData s.writeBuff]) }) := by
  unfold stack_cmd
  rw [hc, sync_eq s hc]
  simp [hge, hc]

/-- Enqueueing a list of frames whose total size stays strictly below the
flush threshold never flushes: the buffer just accumulates the frames in
order and no transport event is produced. -/
theorem enqueueAll_below (frames : List (List Nat)) (s : C2State)
    (hc : s.connected = true)
    (hlen : s.writeBuff.length + frames.flatten.length + 1 < FTDI_PIPE_LEN) :
    enqueueAll s frames =
      (none, { s with writeBuff := s.writeBuff ++ frames.flatten }) := by
  induction frames generalizing s with
  | nil => simp [enqueueAll]
  | cons f fs ih =>
    have hflat : (f :: fs).flatten = f ++ fs.flatten := by simp
    have hf : s.writeBuff.length + f.length + 1 < FTDI_PIPE_LEN := by
      rw [hflat] at hlen
      simp at hlen
      omega
    have hstep := stack_cmd_below s f hc hf
    have hrest :
        enqueueAll { s with writeBuff := s.writeBuff ++ f } fs =
          (none, { s with
            writeBuff := (s.writeBuff ++ f) ++ fs.flatten }) := by
      apply ih
      · exact hc
      · rw [hflat] at hlen
        simp at hlen ⊢
        omega
    calc enqueueAll s (f :: fs)
        = enqueueAll { s with writeBuff := s.writeBuff ++ f } fs := by
          simp [enqueueAll, hstep]
      _ = (none, { s with writeBuff := (s.writeBuff ++ f) ++ fs.flatten }) :=
          hrest
      _ = (none, { s with writeBuff := s.writeBuff ++ (f :: fs).flatten }) := by
          rw [hflat, List.append_assoc]

/-- C2: for every addr in [0,255], `write_addr` encodes a frame of the fixed
length 17 whose structural decoding is START, drive-C2D, a LSB-first
bit-write command with bit-count field 1 carrying the WriteAddress opcode 3,
immediately followed by a LSB-first byte-write command carrying the literal
byte addr, then release-C2D and STOP. -/
theorem write_addr_frame_spec (addr : Nat) (h : addr ≤ 255) :
    (writeAddrFrame addr).length = 17 ∧
    encodeCmds (writeAddrCmds addr) = writeAddrFrame addr ∧
    decodeFrame (writeAddrFrame addr) = some (writeAddrCmds addr) ∧
    (writeAddrCmds addr)[2]? = some (MpsseCmd.writeBitsPveLsb 1 INS_WRITE_ADDR) ∧
    (writeAddrCmds addr)[3]? = some (MpsseCmd.writeBytesPveLsb [addr]) ∧
    INS_WRITE_ADDR = 3 := by
  refine ⟨rfl, ?_, rfl, rfl, rfl, rfl⟩
  simp [encodeCmds, encodeCmd, writeAddrCmds, writeAddrFrame]

/-- Witness for C2 at addr = 165. -/
theorem write_addr_frame_spec_witness :
    165 ≤ 255 ∧
    ((writeAddrFrame 165).length = 17 ∧
     encodeCmds (writeAddrCmds 165) = writeAddrFrame 165 ∧
     decodeFrame (writeAddrFrame 165) = some (writeAddrCmds 165) ∧
     (writeAddrCmds 165)[2]? = some (MpsseCmd.writeBitsPveLsb 1 INS_WRITE_ADDR) ∧
     (writeAddrCmds 165)[3]? = some (MpsseCmd.writeBytesPveLsb [165]) ∧
     INS_WRITE_ADDR = 3) :=
  ⟨by decide, write_addr_frame_spec 165 (by decide)⟩

/-- C3: for every val in [0,255], `write_data_byte` encodes a frame of fixed
length 18, strictly longer than the 17-byte `write_addr` frame; its
structural decoding carries the WriteData opcode 1 via a bit-write with
bit-count field 3 and contains exactly one WAIT (clock-until-input-high)
command, while the `write_addr` and `read_addr` frames contain none. -/
theorem write_data_byte_frame_spec (val addr : Nat)
    (hv : val ≤ 255) (ha : addr ≤ 255) :
    (writeDataByteFrame val).length = 18 ∧
    (writeAddrFrame addr).length = 17 ∧
    (writeAddrFrame addr).length < (writeDataByteFrame val).length ∧
    decodeFrame (writeDataByteFrame val) = some (writeDataByteCmds val) ∧
    (writeDataByteCmds val)[2]? = some (MpsseCmd.writeBitsPveLsb 3 INS_WRITE_DATA) ∧
    INS_WRITE_DATA = 1 ∧
    countWait (writeDataByteCmds val) = 1 ∧
    decodeFrame (writeAddrFrame addr) = some (writeAddrCmds addr) ∧
    countWait (writeAddrCmds addr) = 0 ∧
    decodeFrame readAddrFrame = some readAddrCmds ∧
    countWait readAddrCmds = 0 :=
  ⟨rfl, rfl, Nat.le.refl, rfl, rfl, rfl, rfl, rfl, rfl, rfl, rfl⟩

/-- Witness for C3 at val = 66, addr = 7. -/
theorem write_data_byte_frame_spec_witness :
    66 ≤ 255 ∧ 7 ≤ 255 ∧
    ((writeDataByteFrame 66).length = 18 ∧
     (writeAddrFrame 7).length = 17 ∧
     (writeAddrFrame 7).length < (writeDataByteFrame 66).length ∧
     decodeFrame (writeDataByteFrame 66) = some (writeDataByteCmds 66) ∧
     (writeDataByteCmds 66)[2]? = some (MpsseCmd.writeBitsPveLsb 3 INS_WRITE_DATA) ∧
     INS_WRITE_DATA = 1 ∧
     countWait (writeDataByteCmds 66) = 1 ∧
     decodeFrame (writeAddrFrame 7) = some (writeAddrCmds 7) ∧
     countWait (writeAddrCmds 7) = 0 ∧
     decodeFrame readAddrFrame = some readAddrCmds ∧
     countWait readAddrCmds = 0) :=
  ⟨by decide, by decide, write_data_byte_frame_spec 66 7 (by decide) (by decide)⟩

/-- C9: encoding the `write_data_byte 0x42` frame and structurally decoding
it recovers the WriteData opcode 1 and the payload byte 0x42. -/
theorem write_data_byte_roundtrip :
    encodeCmds (writeDataByteCmds 0x42) = writeDataByteFrame 0x42 ∧
    decodeFrame (writeDataByteFrame 0x42) = some (writeDataByteCmds 0x42) ∧
    decodedIns (writeDataByteCmds 0x42) = some INS_WRITE_DATA ∧
    decodedPayload (writeDataByteCmds 0x42) = some [0x42] ∧
    INS_WRITE_DATA = 1 := by
  decide

/-- C5: after `close` (with either value of freeze) the transport is
invalidated, and every subsequent transaction call fails with the
NotConnected error kind, leaving the state untouched. -/
theorem close_then_transactions_fail (s : C2State) (freeze : Bool)
    (addr val : Nat) (reply : List Nat) :
    (close s freeze).connected = false ∧
    write_addr (close s freeze) addr =
      (some C2Err.notConnected, close s freeze) ∧
    write_data_byte (close s freeze) val =
      (some C2Err.notConnected, close s freeze) ∧
    read_addr (close s freeze) reply =
      (Except.error C2Err.notConnected, close s freeze) ∧
    read_data_byte (close s freeze) reply =
      (Except.error C2Err.notConnected, close s freeze) := by
  have hc : (close s freeze).connected = false := by
    unfold close
    split <;> simp_all
  have hst : ∀ cmd : List Nat,
      stack_cmd (close s freeze) cmd =
        (some C2Err.notConnected, close s freeze) := by
    intro cmd
    unfold stack_cmd
    rw [hc]
    simp
  refine ⟨hc, hst _, hst _, ?_, ?_⟩ <;>
    simp [read_addr, read_data_byte, hst]

/-- C6: on a connected transport, `reset` first flushes pending output and
then issues exactly two SET-output transport writes, the first with the
clock bit low in the value byte, the second with the clock bit high, both
keeping the data-output bit set in the value byte; on a disconnected
transport it fails with NotConnected without writing anything. -/
theorem reset_two_set_output (s : C2State) :
    reset s =
      (if s.connected then
        (none, { s with
          writeBuff := [],
          events := s.events
            ++ (if s.writeBuff = [] then [] else [Ev.writeData s.writeBuff])
            ++ [Ev.writeData [SET_BITS_LOW, 0 ||| D_O_BIT, CK_BIT],
                Ev.writeData [SET_BITS_LOW, CK_BIT ||| D_O_BIT, CK_BIT]] })
      else (some C2Err.notConnected, s)) ∧
    [SET_BITS_LOW, 0 ||| D_O_BIT, CK_BIT] =
      encodeCmd (MpsseCmd.setBitsLow (0 ||| D_O_BIT) CK_BIT) ∧
    [SET_BITS_LOW, CK_BIT ||| D_O_BIT, CK_BIT] =
      encodeCmd (MpsseCmd.setBitsLow (CK_BIT ||| D_O_BIT) CK_BIT) ∧
    (0 ||| D_O_BIT) &&& CK_BIT = 0 ∧
    (0 ||| D_O_BIT) &&& D_O_BIT = D_O_BIT ∧
    (CK_BIT ||| D_O_BIT) &&& CK_BIT = CK_BIT ∧
    (CK_BIT ||| D_O_BIT) &&& D_O_BIT = D_O_BIT := by
  refine ⟨?_, rfl, rfl, by decide, by decide, by decide, by decide⟩
  by_cases hc : s.connected = true
  · rw [if_pos (by simp [hc])]
    unfold reset
    rw [hc, sync_eq s hc]
    simp [hc]
  · have hcf : s.connected = false := by simpa using hc
    rw [if_neg (by simp [hcf])]
    unfold reset
    rw [hcf]
    simp

/-- On a connected transport, `read_addr` flushes all pending output plus its
own frame (as one or two writes, depending on the flush threshold), then
performs exactly one transport read of 1 logical byte with sample factor 4,
and finally indexes the reply. -/
theorem read_addr_eq (s : C2State) (reply : List Nat)
    (hc : s.connected = true) :
    read_addr s reply =
      ((match reply with
        | [] => Except.error C2Err.indexError
        | b :: _ => Except.ok b),
       { s with
         writeBuff := [],
         events := s.events
           ++ (if FTDI_PIPE_LEN ≤ s.writeBuff.length + readAddrFrame.length + 1
               then [Ev.writeData s.writeBuff, Ev.writeData readAddrFrame]
               else [Ev.writeData (s.writeBuff ++ readAddrFrame)])
           ++ [Ev.readDataBytes 1 4] }) := by
  by_cases h : FTDI_PIPE_LEN ≤ s.writeBuff.length + readAddrFrame.length + 1
  · have hnb : s.writeBuff ≠ [] := by
      intro hb
      rw [hb] at h
      simp [FTDI_PIPE_LEN, readAddrFrame] at h
    unfold read_addr
    simp only [stack_cmd_above s readAddrFrame hc h, sync_eq, hc]
    rw [if_pos h]
    cases reply <;>
      simp [readAddrFrame, List.append_assoc, hnb]
  · unfold read_addr
    simp only [stack_cmd_below s readAddrFrame hc (by omega), sync_eq, hc]
    rw [if_neg h]
    have hne : s.writeBuff ++ readAddrFrame ≠ [] := by
      simp [readAddrFrame]
    cases reply <;>
      simp [hne, List.append_assoc]

/-- On a connected transport, `read_data_byte` flushes all pending output
plus its own frame, then performs exactly one transport read of 1 logical
byte with sample factor 4, and finally indexes the reply. -/
theorem read_data_byte_eq (s : C2State) (reply : List Nat)
    (hc : s.connected = true) :
    read_data_byte s reply =
      ((match reply with
        | [] => Except.error C2Err.indexError
        | b :: _ => Except.ok b),
       { s with
         writeBuff := [],
         events := s.events
           ++ (if FTDI_PIPE_LEN ≤
                 s.writeBuff.length + readDataByteFrame.length + 1
               then [Ev.writeData s.writeBuff, Ev.writeData readDataByteFrame]
               else [Ev.writeData (s.writeBuff ++ readDataByteFrame)])
           ++ [Ev.readDataBytes 1 4] }) := by
  by_cases h : FTDI_PIPE_LEN ≤ s.writeBuff.length + readDataByteFrame.length + 1
  · have hnb : s.writeBuff ≠ [] := by
      intro hb
      rw [hb] at h
      simp [FTDI_PIPE_LEN, readDataByteFrame] at h
    unfold read_data_byte
    simp only [stack_cmd_above s readDataByteFrame hc h, sync_eq, hc]
    rw [if_pos h]
    cases reply <;>
      simp [readDataByteFrame, List.append_assoc, hnb]
  · unfold read_data_byte
    simp only [stack_cmd_below s readDataByteFrame hc (by omega), sync_eq, hc]
    rw [if_neg h]
    have hne : s.writeBuff ++ readDataByteFrame ≠ [] := by
      simp [readDataByteFrame]
    cases reply <;>
      simp [hne, List.append_assoc]

/-- C4: on a connected transport with a non-empty reply, `read_addr` and
`read_data_byte` enqueue their frame, force a flush so that every previously
enqueued byte and their own frame are written (as write events) before the
read, issue exactly one synchronous read of 1 logical byte with sample
factor 4, and return the first reply byte. -/
theorem read_forces_flush (s : C2State) (reply : List Nat)
    (hc : s.connected = true) (hr : reply ≠ []) :
    (∃ ws, allWrites ws ∧ writesFlat ws = s.writeBuff ++ readAddrFrame ∧
       read_addr s reply =
         (Except.ok (reply.headD 0),
          { s with
            writeBuff := [],
            events := s.events ++ ws ++ [Ev.readDataBytes 1 4] })) ∧
    (∃ ws, allWrites ws ∧ writesFlat ws = s.writeBuff ++ readDataByteFrame ∧
       read_data_byte s reply =
         (Except.ok (reply.headD 0),
          { s with
            writeBuff := [],
            events := s.events ++ ws ++ [Ev.readDataBytes 1 4] })) := by
  obtain ⟨b, rest, rfl⟩ := List.exists_cons_of_ne_nil hr
  constructor
  · refine ⟨if FTDI_PIPE_LEN ≤ s.writeBuff.length + readAddrFrame.length + 1
        then [Ev.writeData s.writeBuff, Ev.writeData readAddrFrame]
        else [Ev.writeData (s.writeBuff ++ readAddrFrame)], ?_, ?_, ?_⟩
    · by_cases h : FTDI_PIPE_LEN ≤ s.writeBuff.length + readAddrFrame.length + 1 <;>
        simp [allWrites, h]
    · by_cases h : FTDI_PIPE_LEN ≤ s.writeBuff.length + readAddrFrame.length + 1 <;>
        simp [writesFlat, h]
    · rw [read_addr_eq s (b :: rest) hc]
      simp [List.append_assoc]
  · refine ⟨if FTDI_PIPE_LEN ≤ s.writeBuff.length + readDataByteFrame.length + 1
        then [Ev.writeData s.writeBuff, Ev.writeData readDataByteFrame]
        else [Ev.writeData (s.writeBuff ++ readDataByteFrame)], ?_, ?_, ?_⟩
    · by_cases h : FTDI_PIPE_LEN ≤ s.writeBuff.length + readDataByteFrame.length + 1 <;>
        simp [allWrites, h]
    · by_cases h : FTDI_PIPE_LEN ≤ s.writeBuff.length + readDataByteFrame.length + 1 <;>
        simp [writesFlat, h]
    · rw [read_data_byte_eq s (b :: rest) hc]
      simp [List.append_assoc]

/-- C10: on a connected transport, the reads return a register value exactly
when the transport reply is non-empty; an empty reply makes them fail with
the untyped index error, which is none of the tagged error kinds. -/
theorem read_reply_indexing (s : C2State) (reply : List Nat)
    (hc : s.connected = true) :
    (reply = [] →
       (read_addr s reply).1 = Except.error C2Err.indexError ∧
       (read_data_byte s reply).1 = Except.error C2Err.indexError) ∧
    (reply ≠ [] →
       (read_addr s reply).1 = Except.ok (reply.headD 0) ∧
       (read_data_byte s reply).1 = Except.ok (reply.headD 0)) ∧
    C2Err.isTagged C2Err.indexError = false ∧
    C2Err.indexError ≠ C2Err.notConnected ∧
    C2Err.indexError ≠ C2Err.typeError := by
  refine ⟨?_, ?_, rfl, by decide, by decide⟩
  · intro hr
    subst hr
    rw [read_addr_eq s [] hc, read_data_byte_eq s [] hc]
    exact ⟨rfl, rfl⟩
  · intro hr
    obtain ⟨b, rest, rfl⟩ := List.exists_cons_of_ne_nil hr
    rw [read_addr_eq s (b :: rest) hc, read_data_byte_eq s (b :: rest) hc]
    exact ⟨rfl, rfl⟩

/-- C1: for any state of the batcher and any frame that fits the transport
on its own, enqueueing through `_stack_cmd` flushes first exactly when the
buffered length plus the frame length plus the one reserved byte reaches the
512-byte transport limit; in that case exactly one write event occurs
carrying the old buffer, the buffer is empty right after the flush and holds
only the new frame after the append; below the threshold no transport event
occurs and the frame is appended; in both cases the buffer obeys
`len(buffer) + len(frame) + 1 < 512` right before the append. -/
theorem stack_cmd_flush_boundary (s : C2State) (frame : List Nat)
    (hc : s.connected = true) (hf : frame.length + 1 < FTDI_PIPE_LEN) :
    (FTDI_PIPE_LEN ≤ s.writeBuff.length + frame.length + 1 →
       stack_cmd s frame =
         (none, { s with
           writeBuff := frame,
           events := s.events ++ [Ev.writeData s.writeBuff] }) ∧
       (sync s).2.writeBuff = []) ∧
    (s.writeBuff.length + frame.length + 1 < FTDI_PIPE_LEN →
       stack_cmd s frame =
         (none, { s with writeBuff := s.writeBuff ++ frame })) ∧
    (if FTDI_PIPE_LEN ≤ s.writeBuff.length + frame.length + 1
       then (sync s).2 else s).writeBuff.length + frame.length + 1 <
      FTDI_PIPE_LEN := by
  refine ⟨?_, ?_, ?_⟩
  · intro h
    have hnb : s.writeBuff ≠ [] := by
      intro hb
      rw [hb] at h
      simp at h
      omega
    constructor
    · rw [stack_cmd_above s frame hc h]
      simp [hnb]
    · rw [sync_eq s hc]
  · intro h
    exact stack_cmd_below s frame hc h
  · by_cases h : FTDI_PIPE_LEN ≤ s.writeBuff.length + frame.length + 1
    · rw [if_pos h, sync_eq s hc]
      simpa using hf
    · rw [if_neg h]
      omega

/-- C7: on a connected transport, `sync` is a no-op on an empty buffer;
on a non-empty buffer it hands the whole buffer to the transport as one
single write and clears it; and a buffer filled by enqueueing a below-limit
sequence of frames from empty is flushed as the raw concatenation of those
frames in enqueue order. -/
theorem sync_flush_concat (s : C2State) (frames : List (List Nat))
    (hc : s.connected = true) :
    (s.writeBuff = [] → sync s = (none, s)) ∧
    (s.writeBuff ≠ [] →
       sync s = (none, { s with
         writeBuff := [],
         events := s.events ++ [Ev.writeData s.writeBuff] })) ∧
    (s.writeBuff = [] → frames.flatten.length + 1 < FTDI_PIPE_LEN →
       frames.flatten ≠ [] →
       sync (enqueueAll s frames).2 =
         (none, { s with
           writeBuff := [],
           events := s.events ++ [Ev.writeData frames.flatten] })) := by
  obtain ⟨c, buf, evs⟩ := s
  subst hc
  refine ⟨?_, ?_, ?_⟩
  · intro hb
    subst hb
    simp [sync]
  · intro hb
    rw [sync_eq _ rfl]
    simp [hb]
  · intro hb hlen hne
    subst hb
    rw [enqueueAll_below frames ⟨true, [], evs⟩ rfl (by simpa using hlen)]
    rw [sync_eq _ rfl]
    simp [hne]

/-- C8: when an operation fails because the transport is disconnected, the
controller state — in particular the pending buffer of enqueued but
unflushed commands — is left exactly unchanged, and exactly those bytes are
sent by the next successful explicit flush (`sync`) or implicit flush
(`_stack_cmd` crossing the threshold). -/
theorem error_preserves_buffer (s : C2State) (cmd reply : List Nat)
    (hnc : s.connected = false) (hnb : s.writeBuff ≠ []) :
    sync s = (some C2Err.notConnected, s) ∧
    stack_cmd s cmd = (some C2Err.notConnected, s) ∧
    read_addr s reply = (Except.error C2Err.notConnected, s) ∧
    read_data_byte s reply = (Except.error C2Err.notConnected, s) ∧
    reset s = (some C2Err.notConnected, s) ∧
    sync { s with connected := true } =
      (none, { s with
        connected := true,
        writeBuff := [],
        events := s.events ++ [Ev.writeData s.writeBuff] }) ∧
    (FTDI_PIPE_LEN ≤ s.writeBuff.length + cmd.length + 1 →
       stack_cmd { s with connected := true } cmd =
         (none, { s with
           connected := true,
           writeBuff := cmd,
           events := s.events ++ [Ev.writeData s.writeBuff] })) := by
  have h2 : ∀ c : List Nat,
      stack_cmd s c = (some C2Err.notConnected, s) := by
    intro c
    unfold stack_cmd
    rw [hnc]
    simp
  refine ⟨?_, h2 cmd, ?_, ?_, ?_, ?_, ?_⟩
  · unfold sync
    rw [hnc]
    simp
  · simp [read_addr, h2]
  · simp [read_data_byte, h2]
  · unfold reset
    rw [hnc]
    simp
  · rw [sync_eq { s with connected := true } rfl]
    simp [hnb]
  · intro h
    rw [stack_cmd_above { s with connected := true } cmd rfl (by simpa using h)]
    simp [hnb]

/-- Concrete connected state holding 500 buffered bytes, for boundary
checks. -/
def nearFullState : C2State := ⟨true, List.replicate 500 9, []⟩

/-- Concrete connected state with a small pending buffer. -/
def smallState : C2State := ⟨true, [1, 2, 3], []⟩

/-- Concrete connected state with an empty pending buffer. -/
def emptyBufState : C2State := ⟨true, [], []⟩

/-- Concrete connected state with one pending byte. -/
def readyState : C2State := ⟨true, [4], []⟩

/-- Concrete disconnected state with a non-empty pending buffer. -/
def disconnectedState : C2State := ⟨false, [1, 2], []⟩

/-- Witness for C1: a 500-byte buffer plus a 17-byte frame crosses the
512-byte limit. -/
theorem stack_cmd_flush_boundary_witness :
    nearFullState.connected = true ∧
    (writeAddrFrame 7).length + 1 < FTDI_PIPE_LEN ∧
    ((FTDI_PIPE_LEN ≤
        nearFullState.writeBuff.length + (writeAddrFrame 7).length + 1 →
        stack_cmd nearFullState (writeAddrFrame 7) =
          (none, { nearFullState with
            writeBuff := writeAddrFrame 7,
            events := nearFullState.events ++
              [Ev.writeData nearFullState.writeBuff] }) ∧
        (sync nearFullState).2.writeBuff = []) ∧
     (nearFullState.writeBuff.length + (writeAddrFrame 7).length + 1 <
        FTDI_PIPE_LEN →
        stack_cmd nearFullState (writeAddrFrame 7) =
          (none, { nearFullState with
            writeBuff := nearFullState.writeBuff ++ writeAddrFrame 7 })) ∧
     (if FTDI_PIPE_LEN ≤
          nearFullState.writeBuff.length + (writeAddrFrame 7).length + 1
        then (sync nearFullState).2 else nearFullState).writeBuff.length +
       (writeAddrFrame 7).length + 1 < FTDI_PIPE_LEN) :=
  ⟨rfl, by decide,
   stack_cmd_flush_boundary nearFullState (writeAddrFrame 7) rfl (by decide)⟩

/-- Witness for C4 on a small buffered state and the one-byte reply 9. -/
theorem read_forces_flush_witness :
    smallState.connected = true ∧
    ([9] : List Nat) ≠ [] ∧
    ((∃ ws, allWrites ws ∧
        writesFlat ws = smallState.writeBuff ++ readAddrFrame ∧
        read_addr smallState [9] =
          (Except.ok (([9] : List Nat).headD 0),
           { smallState with
             writeBuff := [],
             events := smallState.events ++ ws ++ [Ev.readDataBytes 1 4] })) ∧
     (∃ ws, allWrites ws ∧
        writesFlat ws = smallState.writeBuff ++ readDataByteFrame ∧
        read_data_byte smallState [9] =
          (Except.ok (([9] : List Nat).headD 0),
           { smallState with
             writeBuff := [],
             events := smallState.events ++ ws ++ [Ev.readDataBytes 1 4] }))) :=
  ⟨rfl, by decide, read_forces_flush smallState [9] rfl (by decide)⟩

/-- Witness for C7 on an empty buffer and the frame sequence [[1,2],[3]]. -/
theorem sync_flush_concat_witness :
    emptyBufState.connected = true ∧
    ((emptyBufState.writeBuff = [] →
        sync emptyBufState = (none, emptyBufState)) ∧
     (emptyBufState.writeBuff ≠ [] →
        sync emptyBufState = (none, { emptyBufState with
          writeBuff := [],
          events := emptyBufState.events ++
            [Ev.writeData emptyBufState.writeBuff] })) ∧
     (emptyBufState.writeBuff = [] →
        ([[1, 2], [3]] : List (List Nat)).flatten.length + 1 < FTDI_PIPE_LEN →
        ([[1, 2], [3]] : List (List Nat)).flatten ≠ [] →
        sync (enqueueAll emptyBufState [[1, 2], [3]]).2 =
          (none, { emptyBufState with
            writeBuff := [],
            events := emptyBufState.events ++
              [Ev.writeData ([[1, 2], [3]] : List (List Nat)).flatten] }))) :=
  ⟨rfl, sync_flush_concat emptyBufState [[1, 2], [3]] rfl⟩

/-- Witness for C8 on a disconnected state with buffered bytes [1, 2] and a
509-byte command that crosses the threshold after reconnection. -/
theorem error_preserves_buffer_witness :
    disconnectedState.connected = false ∧
    disconnectedState.writeBuff ≠ [] ∧
    (sync disconnectedState = (some C2Err.notConnected, disconnectedState) ∧
     stack_cmd disconnectedState (List.replicate 509 0) =
       (some C2Err.notConnected, disconnectedState) ∧
     read_addr disconnectedState [] =
       (Except.error C2Err.notConnected, disconnectedState) ∧
     read_data_byte disconnectedState [] =
       (Except.error C2Err.notConnected, disconnectedState) ∧
     reset disconnectedState = (some C2Err.notConnected, disconnectedState) ∧
     sync { disconnectedState with connected := true } =
       (none, { disconnectedState with
         connected := true,
         writeBuff := [],
         events := disconnectedState.events ++
           [Ev.writeData disconnectedState.writeBuff] }) ∧
     (FTDI_PIPE_LEN ≤
        disconnectedState.writeBuff.length + (List.replicate 509 0).length + 1 →
        stack_cmd { disconnectedState with connected := true }
            (List.replicate 509 0) =
          (none, { disconnectedState with
            connected := true,
            writeBuff := List.replicate 509 0,
            events := disconnectedState.events ++
              [Ev.writeData disconnectedState.writeBuff] }))) :=
  ⟨rfl, by decide,
   error_preserves_buffer disconnectedState (List.replicate 509 0) []
     rfl (by decide)⟩

/-- Witness for C10 on a connected state and the one-byte reply 5. -/
theorem read_reply_indexing_witness :
    readyState.connected = true ∧
    ((([5] : List Nat) = [] →
        (read_addr readyState [5]).1 = Except.error C2Err.indexError ∧
        (read_data_byte readyState [5]).1 = Except.error C2Err.indexError) ∧
     (([5] : List Nat) ≠ [] →
        (read_addr readyState [5]).1 = Except.ok (([5] : List Nat).headD 0) ∧
        (read_data_byte readyState [5]).1 =
          Except.ok (([5] : List Nat).headD 0)) ∧
     C2Err.isTagged C2Err.indexError = false ∧
     C2Err.indexError ≠ C2Err.notConnected ∧
     C2Err.indexError ≠ C2Err.typeError) :=
  ⟨rfl, read_reply_indexing readyState [5] rfl⟩
